import Mathlib

/-!
Shallow embedding of the streaming subscription manager
(`BinanceWebSocketManager` in `src/connectors/binance-ws.ts`).

JavaScript `Map` objects are embedded as association lists with
first-occurrence lookup; `Map.set` replaces the first matching key in
place (preserving insertion order) or appends, and `Map.delete` removes
the key.  Mutable heap objects that are captured by closures (the
`StreamSubscription` records, the `WebSocket` objects and the timers)
are given explicit identities (`Nat` ids) in per-kind heaps, so that a
closure mutating a subscription object after the manager has dropped it
from its maps is modelled faithfully.
-/

namespace BinanceWS

/-- Set a key in an association list the way JavaScript `Map.set` does:
replace the first occurrence in place, else append at the end. -/
def mapSet {α β : Type} [BEq α] : List (α × β) → α → β → List (α × β)
  | [], k, v => [(k, v)]
  | p :: rest, k, v =>
    if p.1 == k then (k, v) :: rest else p :: mapSet rest k v

/-- Delete a key from an association list (JavaScript `Map.delete`). -/
def mapErase {α β : Type} [BEq α] (l : List (α × β)) (k : α) : List (α × β) :=
  l.filter (fun p => !(p.1 == k))

/-- The keys of an association list, in order. -/
def keysOf {α β : Type} (l : List (α × β)) : List α :=
  l.map Prod.fst

theorem lookup_mapSet_self {α β : Type} [BEq α] [LawfulBEq α]
    (l : List (α × β)) (k : α) (v : β) :
    List.lookup k (mapSet l k v) = some v := by
  induction l with
  | nil => simp [mapSet, List.lookup]
  | cons p rest ih =>
    by_cases h : p.1 = k
    · simp [mapSet, h, List.lookup]
    · have h1 : (p.1 == k) = false := by simpa using h
      have h2 : (k == p.1) = false := by
        simp only [beq_eq_false_iff_ne, ne_eq]
        exact fun e => h e.symm
      simp [mapSet, h1, List.lookup, h2, ih]

theorem lookup_mapSet_ne {α β : Type} [BEq α] [LawfulBEq α]
    (l : List (α × β)) (k k' : α) (v : β) (hne : k' ≠ k) :
    List.lookup k' (mapSet l k v) = List.lookup k' l := by
  have hb : (k' == k) = false := by simpa using hne
  induction l with
  | nil => simp [mapSet, List.lookup, hb]
  | cons p rest ih =>
    by_cases h : p.1 == k
    · have hp : p.1 = k := by simpa [beq_iff_eq] using h
      simp [mapSet, h, List.lookup, hb, hp]
    · simp [mapSet, h, List.lookup, ih]

theorem lookup_mapErase_none {α β : Type} [BEq α] [LawfulBEq α]
    (l : List (α × β)) (k k' : α) (h : List.lookup k' l = none) :
    List.lookup k' (mapErase l k) = none := by
  induction l with
  | nil => simp [mapErase]
  | cons p rest ih =>
    simp only [List.lookup] at h
    by_cases hk : k' == p.1
    · simp [hk] at h
    · simp only [hk, Bool.false_eq_true, if_false] at h
      by_cases hpk : p.1 == k
      · simpa [mapErase, hpk] using ih h
      · simpa [mapErase, hpk, List.lookup, hk] using ih h

theorem mem_mapSet {α β : Type} [BEq α]
    (l : List (α × β)) (k : α) (v : β) (p : α × β)
    (hp : p ∈ mapSet l k v) : p = (k, v) ∨ p ∈ l := by
  induction l with
  | nil => simpa [mapSet] using hp
  | cons q rest ih =>
    by_cases h : q.1 == k
    · simp only [mapSet, h, if_pos, List.mem_cons] at hp
      rcases hp with h1 | h2
      · exact Or.inl h1
      · exact Or.inr (List.mem_cons_of_mem _ h2)
    · simp only [mapSet, h, Bool.false_eq_true, if_false, List.mem_cons] at hp
      rcases hp with h1 | h2
      · exact Or.inr (by simp [h1])
      · rcases ih h2 with h3 | h4
        · exact Or.inl h3
        · exact Or.inr (List.mem_cons_of_mem _ h4)

theorem mem_mapErase {α β : Type} [BEq α]
    (l : List (α × β)) (k : α) (p : α × β)
    (hp : p ∈ mapErase l k) : p ∈ l :=
  List.mem_of_mem_filter hp

/-- Market type of a subscription (`'spot' | 'futures'` in the source). -/
inductive MarketType : Type
  | spot : MarketType
  | futures : MarketType
deriving DecidableEq, Repr

/-- Constant `MAX_RECONNECT_ATTEMPTS = 5` from the manager. -/
def MAX_RECONNECT_ATTEMPTS : Nat := 5

/-- Constant `RECONNECT_DELAY = config.WS_RECONNECT_DELAY || 5000`
(the config supplies 5000), in milliseconds. -/
def RECONNECT_DELAY : Nat := 5000

/-- The `StreamSubscription` record.  Stream kinds are embedded as
strings (the TypeScript union type is erased at runtime; the maps are
keyed by the raw string).  `reconnectTimeout` holds the id of the last
timer armed for this subscription, as the source keeps a `NodeJS.Timeout`
handle. -/
structure StreamSubscription : Type where
  symbol : String
  mtype : MarketType
  streams : List String
  reconnectAttempts : Nat
  reconnectTimeout : Option Nat
deriving DecidableEq, Repr

/-- Status of a transport socket. -/
inductive SockStatus : Type
  | connecting : SockStatus
  | opened : SockStatus
  | closed : SockStatus
deriving DecidableEq, Repr

/-- One `WebSocket` object.  `subOf` is the subscription object captured
by the event-handler closures attached at construction; `symbol` is the
captured symbol string.  `closeRequested` records that `ws.close()` was
called; the `'close'` event itself is delivered later by the
environment. -/
structure Sock : Type where
  symbol : String
  subOf : Nat
  status : SockStatus
  closeRequested : Bool
deriving DecidableEq, Repr

/-- Status of a `setTimeout` reconnect timer. -/
inductive TimerStatus : Type
  | armed : TimerStatus
  | cancelled : TimerStatus
  | fired : TimerStatus
deriving DecidableEq, Repr

/-- One reconnect timer: the subscription object its callback captured,
the delay it was armed with, and its status. -/
structure Timer : Type where
  subOf : Nat
  delay : Nat
  status : TimerStatus
deriving DecidableEq, Repr

/-- The whole manager state.  The four fields of the class
(`connections`, `pingIntervals`, `messageCallbacks`, `subscriptions`)
are the four JavaScript maps; `subObjs`, `socks`, `timers` and
`intervalObjs` are heaps of the mutable objects those maps (and the
closures) reference, and `nextId` is the allocator. -/
structure WSState : Type where
  connections : List (String × Nat)
  pingIntervals : List (String × Nat)
  messageCallbacks : List (String × List (String × List Nat))
  subscriptions : List (String × Nat)
  subObjs : List (Nat × StreamSubscription)
  socks : List (Nat × Sock)
  timers : List (Nat × Timer)
  intervalObjs : List (Nat × Bool)
  nextId : Nat
deriving DecidableEq, Repr

/-- The state built by the constructor: four empty maps. -/
def initState : WSState :=
  { connections := [], pingIntervals := [], messageCallbacks := [],
    subscriptions := [], subObjs := [], socks := [], timers := [],
    intervalObjs := [], nextId := 0 }

/-- The JavaScript `symbol.toLowerCase()` call, character by
character. -/
def jsToLower (s : String) : String :=
  (s.data.map Char.toLower).asString

/-- The JavaScript `str.split(sep)` for a one-character separator,
over the character list: `""` gives `[""]`, a leading, trailing or
doubled separator yields empty segments. -/
def jsSplitChars (sep : Char) : List Char → List (List Char)
  | [] => [[]]
  | c :: rest =>
    match jsSplitChars sep rest with
    | [] => [[c]]
    | grp :: gs =>
      if c = sep then [] :: grp :: gs else (c :: grp) :: gs

/-- `str.split('@')` as used on wire stream names. -/
def jsSplit (s : String) (sep : Char) : List String :=
  (jsSplitChars sep s.data).map List.asString

/-- Wire stream name for one requested kind, from `connectWebSocket`
(the `streams.map` callback): base form `<lowercased-symbol>@<kind>`,
with the futures specials `forceOrder`, `markPrice@1s`,
`openInterest@1s`. -/
def streamName (mtype : MarketType) (symbol : String) (stream : String) : String :=
  match mtype with
  | .futures =>
    if stream = "forceOrder" then jsToLower symbol ++ "@forceOrder"
    else if stream = "markPrice" then jsToLower symbol ++ "@markPrice@1s"
    else if stream = "openInterest" then jsToLower symbol ++ "@openInterest@1s"
    else jsToLower symbol ++ "@" ++ stream
  | .spot => jsToLower symbol ++ "@" ++ stream

/-- The combined-stream path `streamNames.join('/')` appended to the
endpoint URL in `connectWebSocket`. -/
def streamPath (mtype : MarketType) (symbol : String) (streams : List String) : String :=
  String.intercalate "/" (streams.map (streamName mtype symbol))

/-- Stream-kind extraction from `handleStreamMessage`: split the wire
name on `@`; fewer than two parts means the message is ignored;
otherwise the kind is `parts[1]`, re-split on `@` when there are more
than two parts (the compound-suffix case). -/
def extractStreamType (stream : String) : Option String :=
  let streamParts := jsSplit stream '@'
  if h2 : streamParts.length < 2 then none
  else
    let st0 := streamParts.get ⟨1, by omega⟩
    some (if streamParts.length > 2 then (jsSplit st0 '@').headD "" else st0)

/-- The handler list `handleStreamMessage` resolves for an envelope with
the given wire stream name arriving on the connection of `symbol`:
`messageCallbacks.get(symbol)`, then `.get(streamType)`; an empty list
means no handler runs. -/
def routeHandlers (s : WSState) (symbol : String) (stream : String) : List Nat :=
  match List.lookup symbol s.messageCallbacks with
  | none => []
  | some symbolCallbacks =>
    match extractStreamType stream with
    | none => []
    | some streamType =>
      match List.lookup streamType symbolCallbacks with
      | some handlers => handlers
      | none => []

/-- Outcome of invoking one consumer callback. -/
inductive HResult : Type
  | ok : HResult
  | threw : HResult
deriving DecidableEq, Repr

/-- The `handlers.forEach` loop with its per-handler `try`/`catch`: each
handler is invoked in order; a raising handler (described by the
environment oracle `throws`) is caught and logged, and iteration
continues. -/
def invokeAll (throws : Nat → Bool) : List Nat → List (Nat × HResult)
  | [] => []
  | h :: rest =>
    (h, if throws h then HResult.threw else HResult.ok) :: invokeAll throws rest

/-- `handleStreamMessage(symbol, message)`: resolve the handlers for the
envelope and run the `forEach` loop, returning the invocation trace.
The manager maps are not mutated by this method. -/
def handleStreamMessage (s : WSState) (symbol : String) (stream : String)
    (throws : Nat → Bool) : List (Nat × HResult) :=
  invokeAll throws (routeHandlers s symbol stream)

/-- Result of `onStreamData`. -/
inductive OnStreamDataResult : Type
  | registered : OnStreamDataResult
  | unknownSub : OnStreamDataResult
deriving DecidableEq, Repr

/-- `onStreamData(symbol, streamType, handler)`: when the symbol has no
callback map (it was never subscribed) the method logs an error and
returns without registering anything — modelled as the `unknownSub`
outcome; otherwise the handler is appended to the list for that kind. -/
def onStreamDataF (s : WSState) (symbol streamType : String) (handler : Nat) :
    WSState × OnStreamDataResult :=
  match List.lookup symbol s.messageCallbacks with
  | none => (s, .unknownSub)
  | some symbolCallbacks =>
    let handlers := (List.lookup streamType symbolCallbacks).getD []
    let newCallbacks := mapSet symbolCallbacks streamType (handlers ++ [handler])
    ({ s with messageCallbacks := mapSet s.messageCallbacks symbol newCallbacks },
     .registered)

/-- `clearTimeout` on a timer handle: an armed timer becomes cancelled;
a fired or already-cancelled timer is unaffected. -/
def cancelTimer (ts : List (Nat × Timer)) (tid : Nat) : List (Nat × Timer) :=
  match List.lookup tid ts with
  | some t => if t.status = .armed then mapSet ts tid { t with status := .cancelled } else ts
  | none => ts

/-- `ws.close()`: request the transport to close; the `'close'` event is
delivered later as an environment event. -/
def requestClose (socks : List (Nat × Sock)) (sid : Nat) : List (Nat × Sock) :=
  match List.lookup sid socks with
  | some sock => mapSet socks sid { sock with closeRequested := true }
  | none => socks

/-- First step of `cleanup(symbol)`: `clearInterval` on the symbol's
ping interval and drop it from the map. -/
def clearPing (s : WSState) (symbol : String) : WSState :=
  match List.lookup symbol s.pingIntervals with
  | some iid =>
    { s with intervalObjs := mapSet s.intervalObjs iid false,
             pingIntervals := mapErase s.pingIntervals symbol }
  | none => s

/-- Second step of `cleanup(symbol)`: `clearTimeout` on
`this.subscriptions.get(symbol)?.reconnectTimeout` — note it consults
the subscription currently mapped for the symbol, not the one a closure
may have captured. -/
def clearReconnectTimeout (s : WSState) (symbol : String) : WSState :=
  match List.lookup symbol s.subscriptions with
  | some subId =>
    match List.lookup subId s.subObjs with
    | some sub =>
      match sub.reconnectTimeout with
      | some tid => { s with timers := cancelTimer s.timers tid }
      | none => s
    | none => s
  | none => s

/-- `cleanup(symbol)`: clear and drop the ping interval, clear the
mapped subscription's reconnect timeout, and delete the symbol's
connection entry. -/
def cleanup (s : WSState) (symbol : String) : WSState :=
  let s2 := clearReconnectTimeout (clearPing s symbol) symbol
  { s2 with connections := mapErase s2.connections symbol }

/-- `handleReconnection(subscription)`: destructure the attempt counter,
bail out at `MAX_RECONNECT_ATTEMPTS`, increment the counter on the
subscription object, and arm a timer whose delay is
`RECONNECT_DELAY * Math.pow(2, reconnectAttempts - 1)` computed from the
destructured (pre-increment) value.  JavaScript evaluates that float
expression exactly here, and because `RECONNECT_DELAY` is even its value
is the natural number `RECONNECT_DELAY * 2 ^ reconnectAttempts / 2`
(2500 when the counter is 0, since `Math.pow(2, -1) = 0.5`). -/
def handleReconnection (s : WSState) (subId : Nat) : WSState :=
  match List.lookup subId s.subObjs with
  | none => s
  | some sub =>
    let reconnectAttempts := sub.reconnectAttempts
    if reconnectAttempts ≥ MAX_RECONNECT_ATTEMPTS then s
    else
      let delay : Nat := RECONNECT_DELAY * 2 ^ reconnectAttempts / 2
      let tid := s.nextId
      { s with
        nextId := tid + 1,
        timers := mapSet s.timers tid ⟨subId, delay, .armed⟩,
        subObjs := mapSet s.subObjs subId
          { sub with reconnectAttempts := sub.reconnectAttempts + 1,
                     reconnectTimeout := some tid } }

/-- `connectWebSocket(subscription)`: build the combined-stream URL and
construct the transport socket.  The environment flag `ctorThrows` says
whether `new WebSocket(...)` throws synchronously; in that case the
`catch` block runs `handleReconnection` and rethrows (the `Except.error`
result).  On success a connecting socket is recorded in `connections`
under the subscription's symbol. -/
def connectWebSocket (s : WSState) (subId : Nat) (ctorThrows : Bool) :
    WSState × Except Unit Unit :=
  match List.lookup subId s.subObjs with
  | none => (s, .ok ())
  | some sub =>
    if ctorThrows then
      (handleReconnection s subId, .error ())
    else
      let sid := s.nextId
      ({ s with
         nextId := sid + 1,
         socks := mapSet s.socks sid ⟨sub.symbol, subId, .connecting, false⟩,
         connections := mapSet s.connections sub.symbol sid },
       .ok ())

/-- `subscribe(symbol, type, streams)`: allocate a fresh subscription
record with counter 0, create the symbol's callback map if absent and
add an empty handler list for each missing requested kind (existing
lists are kept), store the subscription, and call `connectWebSocket`
(whose synchronous exception, if any, propagates to the caller). -/
def subscribeF (s : WSState) (symbol : String) (mtype : MarketType)
    (streams : List String) (ctorThrows : Bool) : WSState × Except Unit Unit :=
  let subId := s.nextId
  let sub : StreamSubscription :=
    { symbol := symbol, mtype := mtype, streams := streams,
      reconnectAttempts := 0, reconnectTimeout := none }
  let symbolCallbacks := (List.lookup symbol s.messageCallbacks).getD []
  let symbolCallbacks := streams.foldl
    (fun m st => if (List.lookup st m).isSome then m else mapSet m st []) symbolCallbacks
  let s1 :=
    { s with
      nextId := subId + 1,
      messageCallbacks := mapSet s.messageCallbacks symbol symbolCallbacks,
      subscriptions := mapSet s.subscriptions symbol subId,
      subObjs := mapSet s.subObjs subId sub }
  connectWebSocket s1 subId ctorThrows

/-- `unsubscribe(symbol)`: request close on the mapped connection (if
any), run `cleanup`, and delete the subscription and callback entries. -/
def unsubscribeF (s : WSState) (symbol : String) : WSState :=
  let s1 :=
    match List.lookup symbol s.connections with
    | some sid => { s with socks := requestClose s.socks sid }
    | none => s
  let s2 := cleanup s1 symbol
  { s2 with
    subscriptions := mapErase s2.subscriptions symbol,
    messageCallbacks := mapErase s2.messageCallbacks symbol }

/-- `close()`: for every entry of the connections map, request close on
the socket and run `cleanup` for its symbol; then clear the
subscription and callback maps. -/
def closeF (s : WSState) : WSState :=
  let s1 := s.connections.foldl
    (fun acc p => cleanup { acc with socks := requestClose acc.socks p.2 } p.1) s
  { s1 with subscriptions := [], messageCallbacks := [] }

/-- The `ws.on('open')` handler: reset the captured subscription's
attempt counter to 0 and start the ping interval (registered in the
`pingIntervals` map under the captured symbol).  Fires only on a
connecting socket. -/
def openHandler (s : WSState) (sid : Nat) : WSState :=
  match List.lookup sid s.socks with
  | none => s
  | some sock =>
    if sock.status = .connecting then
      let s1 := { s with socks := mapSet s.socks sid { sock with status := .opened } }
      let s2 :=
        match List.lookup sock.subOf s1.subObjs with
        | some sub =>
          { s1 with subObjs := mapSet s1.subObjs sock.subOf { sub with reconnectAttempts := 0 } }
        | none => s1
      let iid := s2.nextId
      { s2 with
        nextId := iid + 1,
        intervalObjs := mapSet s2.intervalObjs iid true,
        pingIntervals := mapSet s2.pingIntervals sock.symbol iid }
    else s

/-- The `ws.on('close')` handler: mark the socket closed, run
`cleanup(symbol)` and then `handleReconnection(subscription)` with the
captured symbol and subscription object, unconditionally.  Fires only on
a socket that is not already closed. -/
def closeHandler (s : WSState) (sid : Nat) : WSState :=
  match List.lookup sid s.socks with
  | none => s
  | some sock =>
    if sock.status = .closed then s
    else
      let s1 := { s with socks := mapSet s.socks sid { sock with status := .closed } }
      let s2 := cleanup s1 sock.symbol
      handleReconnection s2 sock.subOf

/-- A `setTimeout` callback firing: an armed timer becomes fired and its
callback runs `connectWebSocket(subscription)`; a synchronous
constructor throw in that callback is uncaught by the manager (the state
is the one `handleReconnection` left). -/
def timerFireHandler (s : WSState) (tid : Nat) (ctorThrows : Bool) : WSState :=
  match List.lookup tid s.timers with
  | none => s
  | some t =>
    if t.status = .armed then
      let s1 := { s with timers := mapSet s.timers tid { t with status := .fired } }
      (connectWebSocket s1 t.subOf ctorThrows).1
    else s

/-- The events the environment can deliver: the four public API calls
and the asynchronous socket/timer callbacks. -/
inductive Event : Type
  | subscribe (symbol : String) (mtype : MarketType) (streams : List String)
      (ctorThrows : Bool) : Event
  | unsubscribe (symbol : String) : Event
  | closeMgr : Event
  | onStream (symbol streamType : String) (handler : Nat) : Event
  | sockOpen (sid : Nat) : Event
  | sockClose (sid : Nat) : Event
  | sockMessage (sid : Nat) (stream : String) : Event
  | timerFire (tid : Nat) (ctorThrows : Bool) : Event
deriving DecidableEq, Repr

/-- One event against the manager state.  `sockMessage` runs
`handleStreamMessage`, which does not mutate the maps. -/
def step (s : WSState) (e : Event) : WSState :=
  match e with
  | .subscribe symbol mtype streams ctorThrows => (subscribeF s symbol mtype streams ctorThrows).1
  | .unsubscribe symbol => unsubscribeF s symbol
  | .closeMgr => closeF s
  | .onStream symbol streamType handler => (onStreamDataF s symbol streamType handler).1
  | .sockOpen sid => openHandler s sid
  | .sockClose sid => closeHandler s sid
  | .sockMessage _ _ => s
  | .timerFire tid ctorThrows => timerFireHandler s tid ctorThrows

/-- Run a sequence of events from a state. -/
def runTrace (s : WSState) (es : List Event) : WSState :=
  es.foldl step s

/-- `getConnectionState(symbol)`: the `readyState` of the mapped socket,
or the absent value (`undefined`). -/
def getConnectionState (s : WSState) (symbol : String) : Option SockStatus :=
  match List.lookup symbol s.connections with
  | some sid => (List.lookup sid s.socks).map Sock.status
  | none => none

/-- `isSubscribed(symbol, streamType)`. -/
def isSubscribed (s : WSState) (symbol streamType : String) : Bool :=
  match List.lookup symbol s.subscriptions with
  | some subId =>
    match List.lookup subId s.subObjs with
    | some sub => sub.streams.contains streamType
    | none => false
  | none => false

/-- Live transports for a symbol: sockets created for it that have not
received their `'close'` event. -/
def liveSockCount (s : WSState) (symbol : String) : Nat :=
  (s.socks.filter (fun p => p.2.symbol == symbol && !(p.2.status == .closed))).length

/-- Timers currently armed. -/
def armedTimers (s : WSState) : List (Nat × Timer) :=
  s.timers.filter (fun p => p.2.status == .armed)

/-! Structural lemmas: which fields each operation leaves untouched. -/

theorem clearPing_subObjs (s : WSState) (symbol : String) :
    (clearPing s symbol).subObjs = s.subObjs := by
  unfold clearPing; split <;> rfl

theorem clearPing_messageCallbacks (s : WSState) (symbol : String) :
    (clearPing s symbol).messageCallbacks = s.messageCallbacks := by
  unfold clearPing; split <;> rfl

theorem clearPing_subscriptions (s : WSState) (symbol : String) :
    (clearPing s symbol).subscriptions = s.subscriptions := by
  unfold clearPing; split <;> rfl

theorem clearPing_connections (s : WSState) (symbol : String) :
    (clearPing s symbol).connections = s.connections := by
  unfold clearPing; split <;> rfl

theorem clearReconnectTimeout_subObjs (s : WSState) (symbol : String) :
    (clearReconnectTimeout s symbol).subObjs = s.subObjs := by
  unfold clearReconnectTimeout; repeat' split
  all_goals rfl

theorem clearReconnectTimeout_messageCallbacks (s : WSState) (symbol : String) :
    (clearReconnectTimeout s symbol).messageCallbacks = s.messageCallbacks := by
  unfold clearReconnectTimeout; repeat' split
  all_goals rfl

theorem clearReconnectTimeout_subscriptions (s : WSState) (symbol : String) :
    (clearReconnectTimeout s symbol).subscriptions = s.subscriptions := by
  unfold clearReconnectTimeout; repeat' split
  all_goals rfl

theorem clearReconnectTimeout_connections (s : WSState) (symbol : String) :
    (clearReconnectTimeout s symbol).connections = s.connections := by
  unfold clearReconnectTimeout; repeat' split
  all_goals rfl

theorem cleanup_subObjs (s : WSState) (symbol : String) :
    (cleanup s symbol).subObjs = s.subObjs := by
  unfold cleanup
  simp [clearReconnectTimeout_subObjs, clearPing_subObjs]

theorem cleanup_messageCallbacks (s : WSState) (symbol : String) :
    (cleanup s symbol).messageCallbacks = s.messageCallbacks := by
  unfold cleanup
  simp [clearReconnectTimeout_messageCallbacks, clearPing_messageCallbacks]

theorem cleanup_subscriptions (s : WSState) (symbol : String) :
    (cleanup s symbol).subscriptions = s.subscriptions := by
  unfold cleanup
  simp [clearReconnectTimeout_subscriptions, clearPing_subscriptions]

theorem cleanup_connections (s : WSState) (symbol : String) :
    (cleanup s symbol).connections = mapErase s.connections symbol := by
  unfold cleanup
  simp [clearReconnectTimeout_connections, clearPing_connections]

theorem handleReconnection_subscriptions (s : WSState) (subId : Nat) :
    (handleReconnection s subId).subscriptions = s.subscriptions := by
  unfold handleReconnection
  repeat' first
  | split
  | (dsimp only; split)
  all_goals rfl

theorem handleReconnection_messageCallbacks (s : WSState) (subId : Nat) :
    (handleReconnection s subId).messageCallbacks = s.messageCallbacks := by
  unfold handleReconnection
  repeat' first
  | split
  | (dsimp only; split)
  all_goals rfl

theorem handleReconnection_connections (s : WSState) (subId : Nat) :
    (handleReconnection s subId).connections = s.connections := by
  unfold handleReconnection
  repeat' first
  | split
  | (dsimp only; split)
  all_goals rfl

theorem connectWebSocket_subscriptions (s : WSState) (subId : Nat) (ct : Bool) :
    ((connectWebSocket s subId ct).1).subscriptions = s.subscriptions := by
  unfold connectWebSocket; repeat' split
  all_goals simp [handleReconnection_subscriptions]

theorem connectWebSocket_messageCallbacks (s : WSState) (subId : Nat) (ct : Bool) :
    ((connectWebSocket s subId ct).1).messageCallbacks = s.messageCallbacks := by
  unfold connectWebSocket; repeat' split
  all_goals simp [handleReconnection_messageCallbacks]

theorem onStreamDataF_subObjs (s : WSState) (symbol streamType : String) (handler : Nat) :
    ((onStreamDataF s symbol streamType handler).1).subObjs = s.subObjs := by
  unfold onStreamDataF; repeat' split
  all_goals rfl

theorem onStreamDataF_connections (s : WSState) (symbol streamType : String) (handler : Nat) :
    ((onStreamDataF s symbol streamType handler).1).connections = s.connections := by
  unfold onStreamDataF; repeat' split
  all_goals rfl

theorem openHandler_messageCallbacks (s : WSState) (sid : Nat) :
    (openHandler s sid).messageCallbacks = s.messageCallbacks := by
  unfold openHandler
  repeat' first
  | split
  | (dsimp only; split)
  all_goals rfl

theorem openHandler_connections (s : WSState) (sid : Nat) :
    (openHandler s sid).connections = s.connections := by
  unfold openHandler
  repeat' first
  | split
  | (dsimp only; split)
  all_goals rfl

theorem closeHandler_messageCallbacks (s : WSState) (sid : Nat) :
    (closeHandler s sid).messageCallbacks = s.messageCallbacks := by
  unfold closeHandler; repeat' split
  all_goals simp [handleReconnection_messageCallbacks, cleanup_messageCallbacks]

theorem timerFireHandler_messageCallbacks (s : WSState) (tid : Nat) (ct : Bool) :
    (timerFireHandler s tid ct).messageCallbacks = s.messageCallbacks := by
  unfold timerFireHandler; repeat' split
  all_goals simp [connectWebSocket_messageCallbacks]

theorem closeF_fold_subObjs (l : List (String × Nat)) (acc : WSState) :
    (l.foldl (fun acc p => cleanup { acc with socks := requestClose acc.socks p.2 } p.1) acc).subObjs
      = acc.subObjs := by
  induction l generalizing acc with
  | nil => rfl
  | cons p rest ih => simp [List.foldl, ih, cleanup_subObjs]

theorem closeF_subObjs (s : WSState) : (closeF s).subObjs = s.subObjs := by
  unfold closeF
  simp [closeF_fold_subObjs]

theorem unsubscribeF_subObjs (s : WSState) (symbol : String) :
    (unsubscribeF s symbol).subObjs = s.subObjs := by
  unfold unsubscribeF; repeat' split
  all_goals simp [cleanup_subObjs]

/-! Key uniqueness: the association lists stay JavaScript maps. -/

theorem mem_keysOf_mapSet {α β : Type} [BEq α]
    (l : List (α × β)) (k : α) (v : β) (x : α)
    (hx : x ∈ keysOf (mapSet l k v)) : x ∈ keysOf l ∨ x = k := by
  induction l with
  | nil => simpa [mapSet, keysOf] using hx
  | cons p rest ih =>
    by_cases h : p.1 == k
    · simp only [mapSet, h, if_pos, keysOf, List.map_cons, List.mem_cons] at hx
      rcases hx with h1 | h2
      · exact Or.inr h1
      · exact Or.inl (by simp [keysOf]; exact Or.inr (by simpa [keysOf] using h2))
    · simp only [mapSet, h, Bool.false_eq_true, if_false, keysOf, List.map_cons,
        List.mem_cons] at hx
      rcases hx with h1 | h2
      · exact Or.inl (by simp [keysOf, h1])
      · rcases ih (by simpa [keysOf] using h2) with h3 | h4
        · exact Or.inl (by simp [keysOf] at h3 ⊢; exact Or.inr h3)
        · exact Or.inr h4

theorem nodup_keysOf_mapSet {α β : Type} [BEq α] [LawfulBEq α]
    (l : List (α × β)) (k : α) (v : β)
    (h : (keysOf l).Nodup) : (keysOf (mapSet l k v)).Nodup := by
  induction l with
  | nil => simp [mapSet, keysOf]
  | cons p rest ih =>
    simp only [keysOf, List.map_cons, List.nodup_cons] at h
    by_cases hpk : p.1 == k
    · have hpk' : p.1 = k := eq_of_beq hpk
      simp only [mapSet, hpk, if_pos, keysOf, List.map_cons, List.nodup_cons]
      exact ⟨by rw [← hpk']; exact h.1, h.2⟩
    · simp only [mapSet, hpk, Bool.false_eq_true, if_false, keysOf, List.map_cons,
        List.nodup_cons]
      refine ⟨fun hx => ?_, ih h.2⟩
      rcases mem_keysOf_mapSet rest k v p.1 (by simpa [keysOf] using hx) with h1 | h2
      · exact h.1 (by simpa [keysOf] using h1)
      · exact absurd (beq_iff_eq.mpr h2) (by simpa using hpk)

theorem nodup_keysOf_mapErase {α β : Type} [BEq α]
    (l : List (α × β)) (k : α)
    (h : (keysOf l).Nodup) : (keysOf (mapErase l k)).Nodup := by
  have hsub : List.Sublist (keysOf (mapErase l k)) (keysOf l) :=
    List.Sublist.map Prod.fst (List.filter_sublist l)
  exact List.Nodup.sublist hsub h

/-- The connections map has no duplicate symbol keys. -/
def ConnNodup (s : WSState) : Prop := (keysOf s.connections).Nodup

theorem connNodup_cleanup {s : WSState} (symbol : String)
    (h : ConnNodup s) : ConnNodup (cleanup s symbol) := by
  unfold ConnNodup
  rw [cleanup_connections]
  exact nodup_keysOf_mapErase _ _ h

theorem connNodup_handleReconnection {s : WSState} (subId : Nat)
    (h : ConnNodup s) : ConnNodup (handleReconnection s subId) := by
  unfold ConnNodup
  rw [handleReconnection_connections]
  exact h

theorem connNodup_connectWebSocket {s : WSState} (subId : Nat) (ct : Bool)
    (h : ConnNodup s) : ConnNodup ((connectWebSocket s subId ct).1) := by
  unfold connectWebSocket
  split
  · exact h
  · split
    · exact connNodup_handleReconnection _ h
    · exact nodup_keysOf_mapSet _ _ _ h

theorem unsubscribeF_connections (s : WSState) (symbol : String) :
    (unsubscribeF s symbol).connections = mapErase s.connections symbol := by
  unfold unsubscribeF
  dsimp only
  split
  all_goals simp [cleanup_connections]

theorem connNodup_closeF_fold (l : List (String × Nat)) (acc : WSState)
    (h : ConnNodup acc) :
    ConnNodup (l.foldl (fun acc p => cleanup { acc with socks := requestClose acc.socks p.2 } p.1) acc) := by
  induction l generalizing acc with
  | nil => exact h
  | cons p rest ih =>
    rw [List.foldl_cons]
    exact ih _ (connNodup_cleanup _ h)

theorem connNodup_step {s : WSState} (e : Event)
    (h : ConnNodup s) : ConnNodup (step s e) := by
  cases e with
  | subscribe symbol mtype streams ctorThrows =>
    unfold step subscribeF
    dsimp only
    exact connNodup_connectWebSocket _ _ h
  | unsubscribe symbol =>
    unfold ConnNodup step
    rw [unsubscribeF_connections]
    exact nodup_keysOf_mapErase _ _ h
  | closeMgr =>
    unfold step closeF
    dsimp only
    exact connNodup_closeF_fold _ _ h
  | onStream symbol streamType handler =>
    unfold ConnNodup step
    rw [onStreamDataF_connections]
    exact h
  | sockOpen sid =>
    unfold ConnNodup step
    rw [openHandler_connections]
    exact h
  | sockClose sid =>
    simp only [step]
    unfold closeHandler
    repeat' first
    | split
    | (dsimp only; split)
    all_goals first
    | exact h
    | (dsimp only; exact connNodup_handleReconnection _ (connNodup_cleanup _ h))
  | sockMessage sid stream => exact h
  | timerFire tid ctorThrows =>
    simp only [step]
    unfold timerFireHandler
    repeat' first
    | split
    | (dsimp only; split)
    all_goals first
    | exact h
    | (dsimp only; exact connNodup_connectWebSocket _ _ h)

theorem connNodup_runTrace (es : List Event) {s : WSState}
    (h : ConnNodup s) : ConnNodup (runTrace s es) := by
  induction es generalizing s with
  | nil => exact h
  | cons e rest ih => exact ih (connNodup_step e h)

/-! The attempt counter of every subscription object stays bounded. -/

/-- Every subscription object in the heap has its reconnect-attempt
counter within `[0, MAX_RECONNECT_ATTEMPTS]`. -/
def SubInv (s : WSState) : Prop :=
  ∀ p ∈ s.subObjs, p.2.reconnectAttempts ≤ MAX_RECONNECT_ATTEMPTS

theorem subInv_handleReconnection {s : WSState} (subId : Nat)
    (h : SubInv s) : SubInv (handleReconnection s subId) := by
  unfold handleReconnection
  split
  · exact h
  · dsimp only
    split
    · exact h
    · rename_i sub heq hlt
      intro p hp
      rcases mem_mapSet _ _ _ _ hp with h1 | h2
      · subst h1
        simp only [MAX_RECONNECT_ATTEMPTS] at hlt ⊢
        omega
      · exact h p h2

theorem subInv_connectWebSocket {s : WSState} (subId : Nat) (ct : Bool)
    (h : SubInv s) : SubInv ((connectWebSocket s subId ct).1) := by
  unfold connectWebSocket
  split
  · exact h
  · split
    · exact subInv_handleReconnection _ h
    · intro p hp
      exact h p hp

theorem subInv_openHandler {s : WSState} (sid : Nat)
    (h : SubInv s) : SubInv (openHandler s sid) := by
  unfold openHandler
  repeat' first
  | split
  | (dsimp only; split)
  · exact h
  · dsimp only
    rename_i sock heq hconn sub heq2
    intro p hp
    rcases mem_mapSet _ _ _ _ hp with h1 | h2
    · subst h1
      simp [MAX_RECONNECT_ATTEMPTS]
    · exact h p h2
  · dsimp only
    intro p hp
    exact h p hp
  · exact h

theorem subInv_step {s : WSState} (e : Event)
    (h : SubInv s) : SubInv (step s e) := by
  cases e with
  | subscribe symbol mtype streams ctorThrows =>
    simp only [step]
    unfold subscribeF
    dsimp only
    refine subInv_connectWebSocket _ _ ?_
    intro p hp
    rcases mem_mapSet _ _ _ _ hp with h1 | h2
    · subst h1
      simp [MAX_RECONNECT_ATTEMPTS]
    · exact h p h2
  | unsubscribe symbol =>
    simp only [step]
    intro p hp
    rw [unsubscribeF_subObjs] at hp
    exact h p hp
  | closeMgr =>
    simp only [step]
    intro p hp
    rw [closeF_subObjs] at hp
    exact h p hp
  | onStream symbol streamType handler =>
    simp only [step]
    intro p hp
    rw [onStreamDataF_subObjs] at hp
    exact h p hp
  | sockOpen sid =>
    simp only [step]
    exact subInv_openHandler _ h
  | sockClose sid =>
    simp only [step]
    unfold closeHandler
    repeat' first
    | split
    | (dsimp only; split)
    all_goals first
    | exact h
    | (dsimp only
       refine subInv_handleReconnection _ ?_
       intro p hp
       rw [cleanup_subObjs] at hp
       exact h p hp)
  | sockMessage sid stream => exact h
  | timerFire tid ctorThrows =>
    simp only [step]
    unfold timerFireHandler
    repeat' first
    | split
    | (dsimp only; split)
    all_goals first
    | exact h
    | (dsimp only
       refine subInv_connectWebSocket _ _ ?_
       intro p hp
       exact h p hp)

theorem subInv_runTrace (es : List Event) {s : WSState}
    (h : SubInv s) : SubInv (runTrace s es) := by
  induction es generalizing s with
  | nil => exact h
  | cons e rest ih => exact ih (subInv_step e h)

/-! A symbol that is never subscribed never gets a callback-map entry. -/

/-- True when the event is a `subscribe` call for the given symbol. -/
def subscribesTo (e : Event) (symbol : String) : Bool :=
  match e with
  | .subscribe sym _ _ _ => sym == symbol
  | _ => false

theorem subscribeF_mcb_ne {s : WSState} {symbol sym : String}
    (mtype : MarketType) (streams : List String) (ct : Bool) (hne : sym ≠ symbol)
    (h : List.lookup sym s.messageCallbacks = none) :
    List.lookup sym ((subscribeF s symbol mtype streams ct).1).messageCallbacks = none := by
  unfold subscribeF
  dsimp only
  rw [connectWebSocket_messageCallbacks]
  dsimp only
  rw [lookup_mapSet_ne _ _ _ _ hne]
  exact h

theorem onStreamDataF_mcb_none {s : WSState} {sym : String}
    (symbol streamType : String) (handler : Nat)
    (h : List.lookup sym s.messageCallbacks = none) :
    List.lookup sym ((onStreamDataF s symbol streamType handler).1).messageCallbacks = none := by
  unfold onStreamDataF
  split
  · exact h
  · rename_i cbs heq
    dsimp only
    by_cases hs : sym = symbol
    · subst hs
      rw [h] at heq
      exact absurd heq (by simp)
    · rw [lookup_mapSet_ne _ _ _ _ hs]
      exact h

theorem unsubscribeF_mcb_none {s : WSState} {sym : String} (symbol : String)
    (h : List.lookup sym s.messageCallbacks = none) :
    List.lookup sym (unsubscribeF s symbol).messageCallbacks = none := by
  unfold unsubscribeF
  dsimp only
  apply lookup_mapErase_none
  rw [cleanup_messageCallbacks]
  split
  all_goals exact h

theorem mcbNone_step {s : WSState} {sym : String} (e : Event)
    (hev : subscribesTo e sym = false)
    (h : List.lookup sym s.messageCallbacks = none) :
    List.lookup sym (step s e).messageCallbacks = none := by
  cases e with
  | subscribe symbol mtype streams ctorThrows =>
    simp only [step]
    have hne : sym ≠ symbol := by
      simp only [subscribesTo, beq_eq_false_iff_ne, ne_eq] at hev
      exact fun e => hev e.symm
    exact subscribeF_mcb_ne mtype streams ctorThrows hne h
  | unsubscribe symbol =>
    simp only [step]
    exact unsubscribeF_mcb_none symbol h
  | closeMgr =>
    simp only [step]
    unfold closeF
    rfl
  | onStream symbol streamType handler =>
    simp only [step]
    exact onStreamDataF_mcb_none symbol streamType handler h
  | sockOpen sid =>
    simp only [step]
    rw [openHandler_messageCallbacks]
    exact h
  | sockClose sid =>
    simp only [step]
    rw [closeHandler_messageCallbacks]
    exact h
  | sockMessage sid stream => exact h
  | timerFire tid ctorThrows =>
    simp only [step]
    rw [timerFireHandler_messageCallbacks]
    exact h

theorem mcbNone_runTrace (es : List Event) {s : WSState} {sym : String}
    (hev : ∀ e ∈ es, subscribesTo e sym = false)
    (h : List.lookup sym s.messageCallbacks = none) :
    List.lookup sym (runTrace s es).messageCallbacks = none := by
  induction es generalizing s with
  | nil => exact h
  | cons e rest ih =>
    exact ih (fun e' he' => hev e' (List.mem_cons_of_mem _ he'))
      (mcbNone_step e (hev e (List.mem_cons_self _ _)) h)

/-! Claim theorems. -/

/-- C6: for every symbol and stream kind the wire name is
`<lowercased-symbol>@<kind>`, except that under the futures market type
`markPrice` maps to `markPrice@1s` and `openInterest` to
`openInterest@1s` while `forceOrder` gets no suffix and every other kind
is unmodified; the connection target joins the subscription's stream
names with `/`, as on the two concrete subscribe calls of the spec. -/
theorem c6_stream_names :
    (∀ symbol stream, streamName .spot symbol stream = jsToLower symbol ++ "@" ++ stream)
    ∧ (∀ symbol, streamName .futures symbol "forceOrder" = jsToLower symbol ++ "@forceOrder")
    ∧ (∀ symbol, streamName .futures symbol "markPrice" = jsToLower symbol ++ "@markPrice@1s")
    ∧ (∀ symbol, streamName .futures symbol "openInterest" = jsToLower symbol ++ "@openInterest@1s")
    ∧ (∀ symbol stream, stream ≠ "forceOrder" → stream ≠ "markPrice" →
        stream ≠ "openInterest" →
        streamName .futures symbol stream = jsToLower symbol ++ "@" ++ stream)
    ∧ streamPath .spot "BTCUSDT" ["trade", "ticker"] = "btcusdt@trade/btcusdt@ticker"
    ∧ streamPath .futures "ETHUSDT" ["openInterest"] = "ethusdt@openInterest@1s" := by
  refine ⟨fun symbol stream => rfl, fun symbol => rfl, fun symbol => rfl, fun symbol => rfl,
    ?_, by decide, by decide⟩
  intro symbol stream h1 h2 h3
  simp [streamName, h1, h2, h3]

/-- C6 witness: the general futures clause evaluated at the `depth`
kind. -/
theorem c6_stream_names_witness :
    streamName .futures "BTCUSDT" "depth" = jsToLower "BTCUSDT" ++ "@" ++ "depth" :=
  c6_stream_names.2.2.2.2.1 "BTCUSDT" "depth" (by decide) (by decide) (by decide)

/-- Registry fixture for C7: `ETHUSDT` subscribed for futures
`markPrice`, one handler (id 7) registered for kind `markPrice` and one
(id 8) registered under the compound key `markPrice@1s`. -/
def routingDemo : WSState :=
  ((onStreamDataF
      ((onStreamDataF
          ((subscribeF initState "ETHUSDT" .futures ["markPrice"] false).1)
          "ETHUSDT" "markPrice" 7).1)
      "ETHUSDT" "markPrice@1s" 8).1)

/-- C7: the router takes the segment of the wire name between the first
and second delimiter as the stream kind and dispatches exactly to the
handlers registered for (symbol, kind): in general the resolved handler
list is the registry entry at the extracted kind, the extraction yields
the middle segment on every supported wire form, and on
`ethusdt@markPrice@1s` the handler registered for `markPrice` is
invoked while the one registered under `markPrice@1s` is not. -/
theorem c7_routing :
    (∀ s symbol stream,
      routeHandlers s symbol stream =
        ((extractStreamType stream).bind (fun streamType =>
          (List.lookup symbol s.messageCallbacks).bind
            (fun symbolCallbacks => List.lookup streamType symbolCallbacks))).getD [])
    ∧ extractStreamType "ethusdt@markPrice@1s" = some "markPrice"
    ∧ extractStreamType "ethusdt@openInterest@1s" = some "openInterest"
    ∧ extractStreamType "btcusdt@forceOrder" = some "forceOrder"
    ∧ extractStreamType "btcusdt@trade" = some "trade"
    ∧ extractStreamType "btcusdt@ticker" = some "ticker"
    ∧ extractStreamType "btcusdt@bookTicker" = some "bookTicker"
    ∧ extractStreamType "btcusdt@kline" = some "kline"
    ∧ extractStreamType "btcusdt@depth" = some "depth"
    ∧ extractStreamType "nodelimiter" = none
    ∧ (∀ throws,
        handleStreamMessage routingDemo "ETHUSDT" "ethusdt@markPrice@1s" throws
          = [(7, if throws 7 then .threw else .ok)]) := by
  refine ⟨?_, by decide, by decide, by decide, by decide, by decide, by decide,
    by decide, by decide, by decide, ?_⟩
  · intro s symbol stream
    unfold routeHandlers
    rcases hsym : List.lookup symbol s.messageCallbacks with _ | cbs
    · rcases hex : extractStreamType stream with _ | st <;> simp [hex, hsym]
    · rcases hex : extractStreamType stream with _ | st
      · simp [hex, hsym]
      · rcases hk : List.lookup st cbs with _ | handlers <;> simp [hex, hsym, hk]
  · intro throws
    have hroute : routeHandlers routingDemo "ETHUSDT" "ethusdt@markPrice@1s" = [7] := by
      decide
    unfold handleStreamMessage
    rw [hroute]
    rfl

/-- C8: every registered handler for a matching message is invoked, in
registration order; a raising handler is caught per-handler, so later
handlers in the list still run and the registry is untouched, so all
handlers run again for subsequent messages. -/
theorem c8_handler_isolation :
    (∀ throws handlers, (invokeAll throws handlers).map Prod.fst = handlers)
    ∧ (∀ s symbol stream throws,
        handleStreamMessage s symbol stream throws
          = invokeAll throws (routeHandlers s symbol stream))
    ∧ (∀ s sid stream, step s (.sockMessage sid stream) = s)
    ∧ invokeAll (fun h => h == 1) [1, 2] = [(1, .threw), (2, .ok)] := by
  refine ⟨?_, fun s symbol stream throws => rfl, fun s sid stream => rfl, by decide⟩
  intro throws handlers
  induction handlers with
  | nil => rfl
  | cons h rest ih => simp [invokeAll, ih]

/-- C9: for a symbol never subscribed over any event sequence,
`onStreamData` fails with the unknown-subscription outcome and leaves
the state unchanged (nothing is registered); for a symbol that has a
callback map it appends the handler to the list for that kind. -/
theorem c9_unknown_subscription :
    (∀ es symbol streamType handler,
      (∀ e ∈ es, subscribesTo e symbol = false) →
      onStreamDataF (runTrace initState es) symbol streamType handler
        = (runTrace initState es, .unknownSub))
    ∧ (∀ s symbol streamType handler symbolCallbacks,
        List.lookup symbol s.messageCallbacks = some symbolCallbacks →
        (onStreamDataF s symbol streamType handler).2 = .registered
        ∧ List.lookup streamType
            ((List.lookup symbol
              (onStreamDataF s symbol streamType handler).1.messageCallbacks).getD [])
          = some (((List.lookup streamType symbolCallbacks).getD []) ++ [handler])) := by
  constructor
  · intro es symbol streamType handler hev
    have hnone : List.lookup symbol (runTrace initState es).messageCallbacks = none :=
      mcbNone_runTrace es hev rfl
    unfold onStreamDataF
    rw [hnone]
  · intro s symbol streamType handler symbolCallbacks h
    unfold onStreamDataF
    rw [h]
    dsimp only
    rw [lookup_mapSet_self]
    exact ⟨rfl, by simp [lookup_mapSet_self]⟩

/-- C9 witness: with only `BTCUSDT` ever subscribed, registering on
`ETHUSDT` fails and registers nothing, while registering on `BTCUSDT`
appends the handler. -/
theorem c9_unknown_subscription_witness :
    (onStreamDataF
        (runTrace initState [.subscribe "BTCUSDT" .spot ["trade"] false])
        "ETHUSDT" "trade" 0
      = (runTrace initState [.subscribe "BTCUSDT" .spot ["trade"] false], .unknownSub))
    ∧ ((onStreamDataF
          (runTrace initState [.subscribe "BTCUSDT" .spot ["trade"] false])
          "BTCUSDT" "trade" 0).2 = .registered) := by
  constructor
  · exact c9_unknown_subscription.1
      [.subscribe "BTCUSDT" .spot ["trade"] false] "ETHUSDT" "trade" 0 (by decide)
  · exact (c9_unknown_subscription.2
      (runTrace initState [.subscribe "BTCUSDT" .spot ["trade"] false])
      "BTCUSDT" "trade" 0 [("trade", [])] (by decide)).1

/-- C5: over every event sequence every subscription object's
reconnect-attempt counter stays within `[0, MAX_RECONNECT_ATTEMPTS]`;
the `'open'` handler resets the captured subscription's counter to 0;
and a subscription whose counter has reached the maximum gets no further
timer from `handleReconnection` (only a fresh `subscribe` allocates a
new record with counter 0, which `subscribeF` does by construction). -/
theorem c5_attempt_counter :
    (∀ es, SubInv (runTrace initState es))
    ∧ (∀ s sid sock, List.lookup sid s.socks = some sock →
        sock.status = .connecting →
        List.lookup sock.subOf (openHandler s sid).subObjs
          = (List.lookup sock.subOf s.subObjs).map
              (fun sub => { sub with reconnectAttempts := 0 }))
    ∧ (∀ s subId sub, List.lookup subId s.subObjs = some sub →
        sub.reconnectAttempts ≥ MAX_RECONNECT_ATTEMPTS →
        handleReconnection s subId = s)
    ∧ (∀ s symbol mtype streams,
        List.lookup s.nextId ((subscribeF s symbol mtype streams false).1).subObjs
          = some { symbol := symbol, mtype := mtype, streams := streams,
                   reconnectAttempts := 0, reconnectTimeout := none }) := by
  refine ⟨fun es => subInv_runTrace es (by intro p hp; cases hp), ?_, ?_, ?_⟩
  · intro s sid sock hsock hconn
    unfold openHandler
    rcases hsub : List.lookup sock.subOf s.subObjs with _ | sub <;>
      simp [hsock, hconn, hsub, lookup_mapSet_self]
  · intro s subId sub hsub hmax
    unfold handleReconnection
    rw [hsub]
    dsimp only
    rw [if_pos hmax]
  · intro s symbol mtype streams
    unfold subscribeF connectWebSocket
    simp [lookup_mapSet_self]

/-- C5 witness: the bound on a concrete trace that exhausts the
counter, the open-handler reset on a concrete state, and the terminal
behaviour at the maximum on a concrete state. -/
theorem c5_attempt_counter_witness :
    ((0, ({ symbol := "BTCUSDT", mtype := .spot, streams := ["trade"],
            reconnectAttempts := 5, reconnectTimeout := some 5 } : StreamSubscription)).2.reconnectAttempts
      ≤ MAX_RECONNECT_ATTEMPTS)
    ∧ List.lookup 0
        (openHandler
          { initState with
              socks := [(1, ⟨"BTCUSDT", 0, .connecting, false⟩)],
              subObjs := [(0, ⟨"BTCUSDT", .spot, ["trade"], 3, none⟩)],
              nextId := 2 } 1).subObjs
        = some ⟨"BTCUSDT", .spot, ["trade"], 0, none⟩
    ∧ handleReconnection
        { initState with
            subObjs := [(0, ⟨"BTCUSDT", .spot, ["trade"], 5, none⟩)], nextId := 1 } 0
        = { initState with
            subObjs := [(0, ⟨"BTCUSDT", .spot, ["trade"], 5, none⟩)], nextId := 1 } := by
  refine ⟨?_, ?_, ?_⟩
  · exact c5_attempt_counter.1
      [.subscribe "BTCUSDT" .spot ["trade"] true,
       .timerFire 1 true, .timerFire 2 true, .timerFire 3 true, .timerFire 4 true]
      _ (by decide)
  · have h := c5_attempt_counter.2.1
      { initState with
          socks := [(1, ⟨"BTCUSDT", 0, .connecting, false⟩)],
          subObjs := [(0, ⟨"BTCUSDT", .spot, ["trade"], 3, none⟩)],
          nextId := 2 }
      1 ⟨"BTCUSDT", 0, .connecting, false⟩ (by decide) (by decide)
    rw [h]
    decide
  · exact c5_attempt_counter.2.2.1
      { initState with
          subObjs := [(0, ⟨"BTCUSDT", .spot, ["trade"], 5, none⟩)], nextId := 1 }
      0 ⟨"BTCUSDT", .spot, ["trade"], 5, none⟩ (by decide) (by decide)

/-- C1 failing scenario: subscribe, one unexpected socket close (arming
a reconnect timer while no connection exists), then `close()`. -/
def c1Trace : List Event :=
  [.subscribe "BTCUSDT" .spot ["trade"] false, .sockClose 1, .closeMgr]

/-- C1: evaluation of the code at the failing input.  Right after
`close()` the subscription and callback maps are empty and
`getConnectionState` is absent — but the reconnect timer armed by the
earlier close survives `close()` (which only walks the connections
map), and when it expires it reconnects: `getConnectionState` reports a
connecting socket again, so `close()` is not terminal. -/
theorem c1_close_not_terminal :
    (runTrace initState c1Trace).subscriptions = []
    ∧ (runTrace initState c1Trace).messageCallbacks = []
    ∧ getConnectionState (runTrace initState c1Trace) "BTCUSDT" = none
    ∧ armedTimers (runTrace initState c1Trace) = [(2, ⟨0, 2500, .armed⟩)]
    ∧ getConnectionState (runTrace initState (c1Trace ++ [.timerFire 2 false])) "BTCUSDT"
        = some .connecting := by
  decide

/-- C2 failing scenario: subscribe, then `unsubscribe`; the socket's
`'close'` event is delivered afterwards (its close was requested by
`unsubscribe` itself). -/
def c2Trace : List Event :=
  [.subscribe "BTCUSDT" .spot ["trade"] false, .unsubscribe "BTCUSDT"]

/-- C2: evaluation of the code at the failing input.  `unsubscribe`
empties the maps, but the `'close'` event that its own `ws.close()`
triggers still runs `handleReconnection` on the captured subscription
object: a reconnect timer is armed and its expiry recreates a
connection for the removed symbol. -/
theorem c2_unsubscribe_not_inert :
    (runTrace initState c2Trace).subscriptions = []
    ∧ (runTrace initState c2Trace).messageCallbacks = []
    ∧ getConnectionState (runTrace initState c2Trace) "BTCUSDT" = none
    ∧ armedTimers (runTrace initState (c2Trace ++ [.sockClose 1]))
        = [(2, ⟨0, 2500, .armed⟩)]
    ∧ getConnectionState
        (runTrace initState (c2Trace ++ [.sockClose 1, .timerFire 2 false])) "BTCUSDT"
        = some .connecting := by
  decide

/-- C3 scenario: the same symbol subscribed twice, the first socket
still connecting. -/
def c3Trace : List Event :=
  [.subscribe "BTCUSDT" .spot ["trade"] false, .subscribe "BTCUSDT" .spot ["trade"] false]

/-- C3 counterexample: after re-subscribing `BTCUSDT`, two live
transports exist for the symbol at the same instant — the first socket
(id 1) is still connecting and was never asked to close, so `subscribe`
does not tear down the prior connection. -/
theorem c3_two_live_connections :
    liveSockCount (runTrace initState c3Trace) "BTCUSDT" = 2
    ∧ List.lookup 1 (runTrace initState c3Trace).socks
        = some ⟨"BTCUSDT", 0, .connecting, false⟩ := by
  decide

/-- C3 amended: the connections map tracks at most one socket per symbol
(its keys are always duplicate-free and re-subscribing overwrites the
entry), and re-subscribing replaces the Subscription with a fresh record
(counter 0, new stream set) — but the prior transport is not torn down:
the old socket stays live (still connecting, close never requested)
alongside the new one. -/
theorem c3_amended_replacement :
    (∀ es, (keysOf (runTrace initState es).connections).Nodup)
    ∧ (∀ s symbol mtype streams ct,
        List.lookup symbol ((subscribeF s symbol mtype streams ct).1).subscriptions
          = some s.nextId)
    ∧ List.lookup "BTCUSDT" (runTrace initState c3Trace).subscriptions = some 2
    ∧ List.lookup 2 (runTrace initState c3Trace).subObjs
        = some ⟨"BTCUSDT", .spot, ["trade"], 0, none⟩
    ∧ List.lookup "BTCUSDT" (runTrace initState c3Trace).connections = some 3
    ∧ List.lookup 1 (runTrace initState c3Trace).socks
        = some ⟨"BTCUSDT", 0, .connecting, false⟩ := by
  refine ⟨?_, ?_, by decide, by decide, by decide, by decide⟩
  · intro es
    exact connNodup_runTrace es (by simp [ConnNodup, initState, keysOf])
  · intro s symbol mtype streams ct
    unfold subscribeF
    dsimp only
    rw [connectWebSocket_subscriptions]
    dsimp only
    exact lookup_mapSet_self _ _ _

/-- C4 failing scenario: a subscription whose connection closes before
opening, six times in a row, each reconnect timer expiring in between. -/
def c4Trace : List Event :=
  [.subscribe "BTCUSDT" .spot ["trade"] false,
   .sockClose 1, .timerFire 2 false,
   .sockClose 3, .timerFire 4 false,
   .sockClose 5, .timerFire 6 false,
   .sockClose 7, .timerFire 8 false,
   .sockClose 9, .timerFire 10 false,
   .sockClose 11]

/-- C4: evaluation of the code at the failing input.  The very first
unexpected close arms a timer of 2500 ms — `handleReconnection`
destructures the counter before incrementing it, so the delay is
`RECONNECT_DELAY * 2^(a-1)` with the stale `a = 0`, i.e. half the
claimed base delay — and the six successive closes produce the delay
sequence 2500, 5000, 10000, 20000, 40000 with no sixth timer, not the
claimed 5000…80000. -/
theorem c4_stale_counter_backoff :
    (armedTimers (runTrace initState
        [.subscribe "BTCUSDT" .spot ["trade"] false, .sockClose 1])).map
        (fun p => p.2.delay) = [2500]
    ∧ (runTrace initState c4Trace).timers.map (fun p => p.2.delay)
        = [2500, 5000, 10000, 20000, 40000]
    ∧ armedTimers (runTrace initState c4Trace) = []
    ∧ RECONNECT_DELAY * 2 ^ 0 / 2 = 2500 := by
  decide

/-- C10 scenario: every constructor call throws; after the subscribe
and four timer expiries the counter sits at the maximum with the fifth
timer armed. -/
def c10Trace : List Event :=
  [.subscribe "BTCUSDT" .spot ["trade"] true,
   .timerFire 1 true, .timerFire 2 true, .timerFire 3 true, .timerFire 4 true]

/-- C10 counterexample: a reconnect attempt whose constructor throws
while the attempt counter is at the maximum propagates the exception but
schedules nothing — `connectWebSocket` leaves the state untouched, and
firing the last armed timer with a throwing constructor leaves no armed
timer behind, refuting the claim that every synchronous constructor
throw also schedules a background reconnect. -/
theorem c10_exhausted_throw_schedules_nothing :
    (List.lookup 0 (runTrace initState c10Trace).subObjs).map
        StreamSubscription.reconnectAttempts = some 5
    ∧ (connectWebSocket (runTrace initState c10Trace) 0 true).2 = .error ()
    ∧ (connectWebSocket (runTrace initState c10Trace) 0 true).1 = runTrace initState c10Trace
    ∧ armedTimers (step (runTrace initState c10Trace) (.timerFire 5 true)) = [] := by
  exact ⟨by decide, rfl, by decide, by decide⟩

/-- C10 amended: a synchronous constructor throw always propagates; it
also arms a background reconnect timer for the subscription whenever the
attempt counter is below `MAX_RECONNECT_ATTEMPTS` — which is always the
case for a direct `subscribe` call, whose fresh subscription starts at
0 — while at the maximum the throw propagates with no timer armed. -/
theorem c10_throw_reconnect_and_propagate :
    (∀ s symbol mtype streams,
      (subscribeF s symbol mtype streams true).2 = .error ()
      ∧ (List.lookup (s.nextId + 1)
            ((subscribeF s symbol mtype streams true).1).timers).map Timer.status
          = some .armed
      ∧ (List.lookup (s.nextId + 1)
            ((subscribeF s symbol mtype streams true).1).timers).map Timer.subOf
          = some s.nextId)
    ∧ (∀ s subId sub, List.lookup subId s.subObjs = some sub →
        sub.reconnectAttempts < MAX_RECONNECT_ATTEMPTS →
        (connectWebSocket s subId true).2 = .error ()
        ∧ (List.lookup s.nextId ((connectWebSocket s subId true).1).timers).map Timer.status
            = some .armed
        ∧ (List.lookup s.nextId ((connectWebSocket s subId true).1).timers).map Timer.subOf
            = some subId)
    ∧ (∀ s subId sub, List.lookup subId s.subObjs = some sub →
        sub.reconnectAttempts ≥ MAX_RECONNECT_ATTEMPTS →
        connectWebSocket s subId true = (s, .error ())) := by
  refine ⟨?_, ?_, ?_⟩
  · intro s symbol mtype streams
    unfold subscribeF connectWebSocket handleReconnection
    simp [lookup_mapSet_self, MAX_RECONNECT_ATTEMPTS]
  · intro s subId sub hsub hlt
    unfold connectWebSocket handleReconnection
    rw [hsub]
    dsimp only
    rw [if_pos rfl, if_neg (by omega)]
    simp [lookup_mapSet_self]
  · intro s subId sub hsub hmax
    unfold connectWebSocket handleReconnection
    rw [hsub]
    dsimp only
    rw [if_pos rfl, if_pos hmax]

/-- C10 witness: the below-maximum and at-maximum clauses evaluated on
concrete one-subscription states. -/
theorem c10_throw_reconnect_witness :
    ((connectWebSocket
        { initState with
            subObjs := [(0, ⟨"ETHUSDT", .futures, ["markPrice"], 0, none⟩)], nextId := 1 }
        0 true).2 = .error ())
    ∧ connectWebSocket
        { initState with
            subObjs := [(0, ⟨"ETHUSDT", .futures, ["markPrice"], 5, none⟩)], nextId := 1 }
        0 true
      = ({ initState with
             subObjs := [(0, ⟨"ETHUSDT", .futures, ["markPrice"], 5, none⟩)], nextId := 1 },
         .error ()) := by
  constructor
  · exact (c10_throw_reconnect_and_propagate.2.1
      { initState with
          subObjs := [(0, ⟨"ETHUSDT", .futures, ["markPrice"], 0, none⟩)], nextId := 1 }
      0 ⟨"ETHUSDT", .futures, ["markPrice"], 0, none⟩ (by decide) (by decide)).1
  · exact c10_throw_reconnect_and_propagate.2.2
      { initState with
          subObjs := [(0, ⟨"ETHUSDT", .futures, ["markPrice"], 5, none⟩)], nextId := 1 }
      0 ⟨"ETHUSDT", .futures, ["markPrice"], 5, none⟩ (by decide) (by decide)

end BinanceWS
